import Mathlib

/-! gTrade v6.1, `truffle-config.js`.

A shallow embedding of the exported Truffle configuration and of the module
body that builds it, followed by the properties the specification states
about it.

The module body has three kinds of contact with the outside world:

* calls into packages (`dotenv`, `web3`, `@truffle/hdwallet-provider`),
* accesses to `process.env`,
* the object literal assigned to `module.exports`.

Packages are not part of the repository.  `HDWalletProvider` and
`dotenv.config` are taken as parameters; `web3.utils.toWei`, whose result is
stored in the configuration, is modelled from the specification.
-/

namespace TruffleConfig

/-! ## Process environment and observable actions -/

/-- The object `process.env`: a variable name is mapped to its value, and an
unset variable reads as `none` (JavaScript `undefined`). -/
abbrev Env := String → Option String

/-- The actions of the file that reach outside of it, in the order in which
they are performed. -/
inductive Effect where
  /-- Line 22: the call `require('dotenv').config()`. -/
  | dotenvConfig
  /-- Line 25: the call `new Web3()`. -/
  | newWeb3
  /-- Lines 47 and 55: a call `web3.utils.toWei(number, unit)`. -/
  | toWei (number unit : String)
  /-- A property access `process.env.NAME`. -/
  | envRead (name : String)
  /-- A call `new HDWalletProvider(first, second)`. -/
  | newHDWalletProvider (first second : Option String)
  deriving DecidableEq, Repr

/-- What running a piece of the file gives: the actions performed, oldest
first, and either the value produced or the exception thrown. -/
structure Outcome (ε α : Type) where
  effects : List Effect
  result : Except ε α

/-! ## JavaScript values -/

/-- The values the configuration is made of.  An object is the list of its
properties in the order of the literal.  A function value is a zero-argument
arrow function; its body runs when it is called and sees `process.env` as it
is at that moment. -/
inductive Value (ε π : Type) where
  | str (s : String)
  | num (n : Nat)
  | bool (b : Bool)
  | arr (items : List (Value ε π))
  | obj (fields : List (String × Value ε π))
  | fn (body : Env → Outcome ε π)

namespace Value

variable {ε π : Type}

/-- Property access `v.key`. -/
def get? : Value ε π → String → Option (Value ε π)
  | obj fields, key => fields.lookup key
  | _, _ => none

/-- Chained property access `v.k₁.k₂. ... .kₙ`. -/
def path? (v : Value ε π) : List String → Option (Value ε π)
  | [] => some v
  | key :: rest =>
    match v.get? key with
    | some w => w.path? rest
    | none => none

/-- The property names of an object, as `Object.keys` lists them. -/
def keys : Value ε π → List String
  | obj fields => fields.map Prod.fst
  | _ => []

/-- The number a value is, if it is one. -/
def toNat? : Value ε π → Option Nat
  | num n => some n
  | _ => none

/-- Calling a value with no argument while `process.env` is `env`. -/
def call? : Value ε π → Env → Option (Outcome ε π)
  | fn body, env => some (body env)
  | _, _ => none

end Value

/-! ## Unit conversion -/

/-- Modelled from the spec: the unit table of the web3 package is not under
src/.  The specification names one human unit, the gwei, and fixes its value:
"200 gwei converts to exactly 200×10⁹ base units". -/
def getUnitValue (unit : String) : Option Nat :=
  if unit = "gwei" then some (10 ^ 9) else none

/-- The value of a digit string read left to right. -/
def decimalValue (l : List Char) : Nat :=
  l.foldl (fun n c => n * 10 + (c.toNat - '0'.toNat)) 0

/-- Modelled from the spec: the reading of "an amount written in decimal",
the input of the conversion, which the web3 package does and which is not
under src/.  A non-empty string of decimal digits is a natural number;
anything else is not an amount. -/
def parseDecimal (s : String) : Option Nat :=
  if s.data ≠ [] ∧ s.data.all Char.isDigit = true then
    some (decimalValue s.data)
  else
    none

/-- Modelled from the spec: `web3.utils.toWei` is a function of the web3
package, which is not under src/.  It takes an amount written in decimal and
the name of a unit and gives the amount in base units, written in decimal:
"converted from a human unit at load time", "200 gwei converts to exactly
200×10⁹ base units; 100 gwei to 100×10⁹".  An unknown unit or an amount that
is not a decimal numeral is an exception. -/
def toWei (number unit : String) : Except String String :=
  match getUnitValue unit with
  | none => .error "unknown unit"
  | some base =>
    match parseDecimal number with
    | none => .error "invalid number value"
    | some n => .ok (toString (n * base))

/-! ## The module -/

section Module

variable {ε π : Type}

/-- The arrow function `() => new HDWalletProvider(process.env.A, process.env.B)`
of lines 42 and 50, for the variable names `A` and `B`: both properties are
read, left to right, and handed to the constructor in that order; what the
constructor returns or throws is what the function returns or throws. -/
def providerThunk (HDWalletProvider : Option String → Option String → Except ε π)
    (first second : String) : Env → Outcome ε π := fun env =>
  { effects := [.envRead first, .envRead second,
                .newHDWalletProvider (env first) (env second)]
    result := HDWalletProvider (env first) (env second) }

/-- The object literal of lines 27 to 80.  `maticGasPrice` and
`mumbaiGasPrice` stand for the values of the two `web3.utils.toWei` calls. -/
def moduleExports (HDWalletProvider : Option String → Option String → Except ε π)
    (maticGasPrice mumbaiGasPrice : String) : Value ε π :=
  .obj [
    ("contracts_build_directory", .str "./build"),
    ("networks", .obj [
      ("matic", .obj [
        ("provider", .fn (providerThunk HDWalletProvider
          "MATIC_DEPLOYER_FINAL" "MATIC_ENDPOINT_FINAL")),
        ("network_id", .num 137),
        ("timeoutBlocks", .num 200),
        ("skipDryRun", .bool false),
        ("gas", .num 7000000),
        ("gasPrice", .str maticGasPrice)]),
      ("mumbai", .obj [
        ("provider", .fn (providerThunk HDWalletProvider
          "MUMBAI_DEPLOYER" "MUMBAI_ENDPOINT")),
        ("network_id", .num 80001),
        ("timeoutBlocks", .num 200),
        ("skipDryRun", .bool true),
        ("gas", .num 7000000),
        ("gasPrice", .str mumbaiGasPrice)])]),
    ("mocha", .obj [
      ("enableTimeouts", .bool false)]),
    ("compilers", .obj [
      ("solc", .obj [
        ("version", .str "0.8.14"),
        ("settings", .obj [
          ("optimizer", .obj [
            ("enabled", .bool true),
            ("runs", .num 20000)])])])]),
    ("plugins", .arr [
      .str "truffle-contract-size"]),
    ("api_keys", .obj [])]

/-- A loaded module: `process.env` as the module body leaves it, and the
value of `module.exports`. -/
structure Module (ε π : Type) where
  env : Env
  exports : Value ε π

/-- The module body, lines 21 to 80, run with `process.env = env`.
`dotenvConfig` is the change `require('dotenv').config()` makes to
`process.env`.  The two `toWei` calls are evaluated while the object literal
is built, matic's first; an exception of either aborts the load. -/
def load (dotenvConfig : Env → Env)
    (HDWalletProvider : Option String → Option String → Except ε π)
    (env : Env) : Outcome String (Module ε π) :=
  match toWei "200" "gwei" with
  | .error e =>
    { effects := [.dotenvConfig, .newWeb3, .toWei "200" "gwei"]
      result := .error e }
  | .ok maticGasPrice =>
    match toWei "100" "gwei" with
    | .error e =>
      { effects := [.dotenvConfig, .newWeb3, .toWei "200" "gwei", .toWei "100" "gwei"]
        result := .error e }
    | .ok mumbaiGasPrice =>
      { effects := [.dotenvConfig, .newWeb3, .toWei "200" "gwei", .toWei "100" "gwei"]
        result := .ok
          { env := dotenvConfig env
            exports := moduleExports HDWalletProvider maticGasPrice mumbaiGasPrice } }

/-- What the build tool does with `--network name`: it takes
`networks[name].provider` of the exported object and calls it. -/
def invokeProvider (exports : Value ε π) (name : String) (env : Env) :
    Option (Outcome ε π) :=
  match exports.path? ["networks", name, "provider"] with
  | some f => f.call? env
  | none => none

/-- The declared networks: the property names of `networks`. -/
def networkNames (exports : Value ε π) : List String :=
  match exports.get? "networks" with
  | some n => n.keys
  | none => []

/-- The chain id `networks[name].network_id`. -/
def networkId (exports : Value ε π) (name : String) : Option Nat :=
  match exports.path? ["networks", name, "network_id"] with
  | some v => v.toNat?
  | none => none

end Module

/-! ## Sample collaborators and environments -/

/-- A wallet provider that accepts whatever it is given and records it. -/
def acceptAll : Option String → Option String → Except String (Option String × Option String) :=
  fun first second => .ok (first, second)

/-- A wallet provider that checks its input: the secret has to be a private
key of 64 characters and the endpoint has to be present. -/
def strictWallet : Option String → Option String → Except String (String × String)
  | some secret, some endpoint =>
    if secret.length = 64 then .ok (secret, endpoint)
    else .error "Could not create addresses from your mnemonic or private key(s)"
  | _, _ => .error "Could not create addresses from your mnemonic or private key(s)"

/-- The environment with no variable set. -/
def emptyEnv : Env := fun _ => none

/-- An environment in which matic's secret is set to the empty string and
its endpoint to a URL. -/
def blankSecretEnv : Env := fun name =>
  if name = "MATIC_DEPLOYER_FINAL" then some ""
  else if name = "MATIC_ENDPOINT_FINAL" then some "https://matic.example"
  else none

/-- An environment with only matic's two variables set, to the values they
have in `sampleEnv`. -/
def maticOnlyEnv : Env := fun name =>
  if name = "MATIC_DEPLOYER_FINAL" then some "matic secret"
  else if name = "MATIC_ENDPOINT_FINAL" then some "https://matic.example"
  else none

/-- An environment with the four variables set. -/
def sampleEnv : Env := fun name =>
  if name = "MATIC_DEPLOYER_FINAL" then some "matic secret"
  else if name = "MATIC_ENDPOINT_FINAL" then some "https://matic.example"
  else if name = "MUMBAI_DEPLOYER" then some "mumbai secret"
  else if name = "MUMBAI_ENDPOINT" then some "https://mumbai.example"
  else none

/-- The declared networks with the variables their provider functions name,
lines 42 and 50: the network, the variable in the first (secret) position of
the constructor call, the variable in the second (endpoint) position. -/
def requiredVariables : List (String × String × String) :=
  [("matic", "MATIC_DEPLOYER_FINAL", "MATIC_ENDPOINT_FINAL"),
   ("mumbai", "MUMBAI_DEPLOYER", "MUMBAI_ENDPOINT")]

/-- A variable that is unset or set to the empty string. -/
def unsetOrEmpty (env : Env) (name : String) : Prop :=
  env name = none ∨ env name = some ""

/-- A variable that is set to a non-empty string. -/
def isSet (env : Env) (name : String) : Prop :=
  ∃ v, env name = some v ∧ v ≠ ""

/-! ## Decimal numerals -/

theorem digitChar_isDigit (k : Nat) (h : k < 10) : (Nat.digitChar k).isDigit = true := by
  interval_cases k <;> decide

theorem digitChar_value (k : Nat) (h : k < 10) :
    (Nat.digitChar k).toNat - '0'.toNat = k := by
  interval_cases k <;> decide

theorem decimalValue_append_singleton (xs : List Char) (c : Char) :
    decimalValue (xs ++ [c]) = decimalValue xs * 10 + (c.toNat - '0'.toNat) := by
  simp [decimalValue, List.foldl_append]

/-- The digits that `Nat.toDigitsCore` puts in front of its accumulator are a
non-empty decimal numeral of the number converted. -/
theorem toDigitsCore_spec (fuel : Nat) :
    ∀ (n : Nat) (ds : List Char), n < fuel →
      ∃ xs : List Char, Nat.toDigitsCore 10 fuel n ds = xs ++ ds ∧ xs ≠ [] ∧
        xs.all Char.isDigit = true ∧ decimalValue xs = n := by
  induction fuel with
  | zero => intro n ds h; omega
  | succ fuel ih =>
    intro n ds h
    have hd : n % 10 < 10 := Nat.mod_lt _ (by decide)
    by_cases h0 : n / 10 = 0
    · refine ⟨[Nat.digitChar (n % 10)], ?_, by simp, ?_, ?_⟩
      · simp [Nat.toDigitsCore, h0]
      · simp [digitChar_isDigit _ hd]
      · have hv := digitChar_value _ hd
        have : decimalValue [Nat.digitChar (n % 10)]
            = (Nat.digitChar (n % 10)).toNat - '0'.toNat := by
          simp [decimalValue]
        rw [this, hv]
        omega
    · have hlt : n / 10 < fuel := by omega
      obtain ⟨xs, hxs, _, hall, hval⟩ := ih (n / 10) (Nat.digitChar (n % 10) :: ds) hlt
      refine ⟨xs ++ [Nat.digitChar (n % 10)], ?_, by simp, ?_, ?_⟩
      · simp [Nat.toDigitsCore, h0, hxs]
      · simp [List.all_append, hall, digitChar_isDigit _ hd]
      · rw [decimalValue_append_singleton, hval, digitChar_value _ hd]
        omega

/-- Printing a natural number and reading the numeral back gives the number. -/
theorem parseDecimal_toString (n : Nat) : parseDecimal (toString n) = some n := by
  obtain ⟨xs, hxs, hne, hall, hval⟩ := toDigitsCore_spec (n + 1) n [] (Nat.lt_succ_self n)
  have hdata : (toString n).data = xs := by
    show (Nat.toDigits 10 n) = xs
    simpa [Nat.toDigits] using hxs
  unfold parseDecimal
  rw [hdata, if_pos ⟨hne, hall⟩]
  exact congrArg some hval

/-- On every string `parseDecimal` is the standard library's `String.toNat?`. -/
theorem parseDecimal_eq_toNat? (s : String) : parseDecimal s = s.toNat? := by
  have hempty : s.isEmpty = true ↔ s.data = [] := by
    rw [String.isEmpty_iff]
    constructor
    · intro h; rw [h]
    · intro h; exact String.ext h
  unfold parseDecimal decimalValue String.toNat? String.isNat
  rw [String.all_eq, String.foldl_eq]
  by_cases hd : s.data = []
  · simp [hd, hempty.mpr hd]
  · have : s.isEmpty = false := by
      cases he : s.isEmpty
      · rfl
      · exact absurd (hempty.mp he) hd
    simp [hd, this]

/-! ## Evaluating the module -/

theorem toWei_200 : toWei "200" "gwei" = .ok "200000000000" := by rfl

theorem toWei_100 : toWei "100" "gwei" = .ok "100000000000" := by rfl

theorem load_eq {ε π : Type} (dotenvConfig : Env → Env)
    (HDWalletProvider : Option String → Option String → Except ε π) (env : Env) :
    load dotenvConfig HDWalletProvider env =
      { effects := [.dotenvConfig, .newWeb3, .toWei "200" "gwei", .toWei "100" "gwei"]
        result := .ok
          { env := dotenvConfig env
            exports := moduleExports HDWalletProvider "200000000000" "100000000000" } } := by
  rfl

/-- The provider function of `matic`, called while `process.env` is `env`. -/
theorem invokeProvider_matic {ε π : Type}
    (HDWalletProvider : Option String → Option String → Except ε π)
    (g₁ g₂ : String) (env : Env) :
    invokeProvider (moduleExports HDWalletProvider g₁ g₂) "matic" env =
      some (providerThunk HDWalletProvider "MATIC_DEPLOYER_FINAL" "MATIC_ENDPOINT_FINAL" env) := by
  rfl

/-- The provider function of `mumbai`, called while `process.env` is `env`. -/
theorem invokeProvider_mumbai {ε π : Type}
    (HDWalletProvider : Option String → Option String → Except ε π)
    (g₁ g₂ : String) (env : Env) :
    invokeProvider (moduleExports HDWalletProvider g₁ g₂) "mumbai" env =
      some (providerThunk HDWalletProvider "MUMBAI_DEPLOYER" "MUMBAI_ENDPOINT" env) := by
  rfl

/-! ## Properties -/

/-- C1: for every environment the load gives a configuration whose
`networks` object has exactly the two properties `matic` and `mumbai`, each
with exactly the properties `provider`, `network_id`, `timeoutBlocks`,
`skipDryRun`, `gas`, `gasPrice`; matic has network_id 137, timeoutBlocks 200,
skipDryRun false, gas 7000000 and mumbai has network_id 80001,
timeoutBlocks 200, skipDryRun true, gas 7000000. -/
theorem networks_table {ε π : Type} (dotenvConfig : Env → Env)
    (HDWalletProvider : Option String → Option String → Except ε π) (env : Env) :
    ∃ m, (load dotenvConfig HDWalletProvider env).result = .ok m ∧
      networkNames m.exports = ["matic", "mumbai"] ∧
      (m.exports.path? ["networks", "matic"]).map Value.keys =
        some ["provider", "network_id", "timeoutBlocks", "skipDryRun", "gas", "gasPrice"] ∧
      m.exports.path? ["networks", "matic", "network_id"] = some (.num 137) ∧
      m.exports.path? ["networks", "matic", "timeoutBlocks"] = some (.num 200) ∧
      m.exports.path? ["networks", "matic", "skipDryRun"] = some (.bool false) ∧
      m.exports.path? ["networks", "matic", "gas"] = some (.num 7000000) ∧
      (m.exports.path? ["networks", "mumbai"]).map Value.keys =
        some ["provider", "network_id", "timeoutBlocks", "skipDryRun", "gas", "gasPrice"] ∧
      m.exports.path? ["networks", "mumbai", "network_id"] = some (.num 80001) ∧
      m.exports.path? ["networks", "mumbai", "timeoutBlocks"] = some (.num 200) ∧
      m.exports.path? ["networks", "mumbai", "skipDryRun"] = some (.bool true) ∧
      m.exports.path? ["networks", "mumbai", "gas"] = some (.num 7000000) := by
  rw [load_eq]
  exact ⟨_, rfl, rfl, rfl, rfl, rfl, rfl, rfl, rfl, rfl, rfl, rfl, rfl⟩

/-- C2: converting the decimal numeral of any natural number `n` of gwei
gives the decimal numeral of `n * 10 ^ 9`; the gasPrice stored for matic is
the numeral of `200 * 10 ^ 9`, which is 200000000000, and the gasPrice stored
for mumbai is the numeral of `100 * 10 ^ 9`, which is 100000000000; neither is
the gwei figure. -/
theorem gasPrice_in_base_units {ε π : Type} (dotenvConfig : Env → Env)
    (HDWalletProvider : Option String → Option String → Except ε π) (env : Env) :
    (∀ n : Nat, toWei (toString n) "gwei" = .ok (toString (n * 10 ^ 9))) ∧
    ∃ m, (load dotenvConfig HDWalletProvider env).result = .ok m ∧
      m.exports.path? ["networks", "matic", "gasPrice"]
        = some (.str (toString (200 * 10 ^ 9))) ∧
      toString (200 * 10 ^ 9) = "200000000000" ∧
      parseDecimal "200000000000" = some 200000000000 ∧
      m.exports.path? ["networks", "mumbai", "gasPrice"]
        = some (.str (toString (100 * 10 ^ 9))) ∧
      toString (100 * 10 ^ 9) = "100000000000" ∧
      parseDecimal "100000000000" = some 100000000000 ∧
      toString (200 * 10 ^ 9) ≠ "200" ∧ toString (100 * 10 ^ 9) ≠ "100" := by
  refine ⟨?_, ?_⟩
  · intro n
    have hunit : getUnitValue "gwei" = some (10 ^ 9) := by rfl
    simp only [toWei, hunit, parseDecimal_toString]
  · rw [load_eq]
    exact ⟨_, rfl, rfl, by decide, by decide, rfl, by decide, by decide, by decide, by decide⟩

/-- C3 fails as stated: with no variable set, so that both of matic's
required values are absent, the load succeeds and calling matic's provider
function hands the two absent values to the wallet provider; a wallet provider
that accepts them makes the call succeed, and one that rejects them makes it
fail with the wallet provider's own exception.  The same holds with the secret
set to the empty string.  The file itself checks nothing and raises no
`MissingConfiguration`. -/
theorem missing_variables_not_rejected :
    unsetOrEmpty emptyEnv "MATIC_DEPLOYER_FINAL" ∧
    unsetOrEmpty emptyEnv "MATIC_ENDPOINT_FINAL" ∧
    (∃ m, (load id acceptAll emptyEnv).result = .ok m ∧
      (invokeProvider m.exports "matic" emptyEnv).map Outcome.result
        = some (.ok (none, none))) ∧
    (∃ m, (load id strictWallet emptyEnv).result = .ok m ∧
      (invokeProvider m.exports "matic" emptyEnv).map Outcome.result
        = some (.error "Could not create addresses from your mnemonic or private key(s)")) ∧
    unsetOrEmpty blankSecretEnv "MATIC_DEPLOYER_FINAL" ∧
    (∃ m, (load id acceptAll blankSecretEnv).result = .ok m ∧
      (invokeProvider m.exports "matic" blankSecretEnv).map Outcome.result
        = some (.ok (some "", some "https://matic.example"))) := by
  refine ⟨Or.inl rfl, Or.inl rfl, ?_, ?_, Or.inr rfl, ?_⟩
  · rw [load_eq]; exact ⟨_, rfl, rfl⟩
  · rw [load_eq]; exact ⟨_, rfl, rfl⟩
  · rw [load_eq]; exact ⟨_, rfl, rfl⟩

/-- C3 as amended: for every declared network, when one of its two variables
is unset or empty at the time its provider function is called, the function
reads the two variables, hands the values as read to the wallet-provider
constructor, secret first, and does nothing else; its outcome is the
constructor's outcome, so an exception thrown by the constructor is the
exception of the call, unchanged. -/
theorem missing_variable_forwarded {ε π : Type} (dotenvConfig : Env → Env)
    (HDWalletProvider : Option String → Option String → Except ε π)
    (env₀ env : Env) (name first second : String)
    (hN : (name, first, second) ∈ requiredVariables)
    (_hmissing : unsetOrEmpty env first ∨ unsetOrEmpty env second) :
    ∃ m, (load dotenvConfig HDWalletProvider env₀).result = .ok m ∧
      invokeProvider m.exports name env = some
        { effects := [.envRead first, .envRead second,
                      .newHDWalletProvider (env first) (env second)]
          result := HDWalletProvider (env first) (env second) } ∧
      ∀ e, HDWalletProvider (env first) (env second) = .error e →
        (invokeProvider m.exports name env).map Outcome.result = some (.error e) := by
  rw [load_eq]
  refine ⟨_, rfl, ?_⟩
  simp only [requiredVariables, List.mem_cons, Prod.mk.injEq, List.mem_singleton,
    List.not_mem_nil, or_false] at hN
  rcases hN with ⟨rfl, rfl, rfl⟩ | ⟨rfl, rfl, rfl⟩
  · refine ⟨invokeProvider_matic _ _ _ _, ?_⟩
    intro e he
    rw [invokeProvider_matic]
    simp [providerThunk, he]
  · refine ⟨invokeProvider_mumbai _ _ _ _, ?_⟩
    intro e he
    rw [invokeProvider_mumbai]
    simp [providerThunk, he]

/-- The amended C3 at a concrete input: mumbai's provider function called
with no variable set and a wallet provider that checks its input. -/
theorem missing_variable_forwarded_witness :
    ("mumbai", "MUMBAI_DEPLOYER", "MUMBAI_ENDPOINT") ∈ requiredVariables ∧
    (unsetOrEmpty emptyEnv "MUMBAI_DEPLOYER" ∨ unsetOrEmpty emptyEnv "MUMBAI_ENDPOINT") ∧
    ∃ m, (load id strictWallet sampleEnv).result = .ok m ∧
      invokeProvider m.exports "mumbai" emptyEnv = some
        { effects := [.envRead "MUMBAI_DEPLOYER", .envRead "MUMBAI_ENDPOINT",
                      .newHDWalletProvider (emptyEnv "MUMBAI_DEPLOYER")
                        (emptyEnv "MUMBAI_ENDPOINT")]
          result := strictWallet (emptyEnv "MUMBAI_DEPLOYER") (emptyEnv "MUMBAI_ENDPOINT") } ∧
      ∀ e, strictWallet (emptyEnv "MUMBAI_DEPLOYER") (emptyEnv "MUMBAI_ENDPOINT") = .error e →
        (invokeProvider m.exports "mumbai" emptyEnv).map Outcome.result = some (.error e) :=
  ⟨by decide, Or.inl (Or.inl rfl),
    missing_variable_forwarded id strictWallet sampleEnv emptyEnv
      "mumbai" "MUMBAI_DEPLOYER" "MUMBAI_ENDPOINT" (by decide) (Or.inl (Or.inl rfl))⟩

/-- C4: for every environment, every change `dotenv` makes to it and every
wallet provider, also one that always throws, the load succeeds; the actions
of the load are the `dotenv` call, the `Web3` construction and the two unit
conversions, with no read of a variable and no wallet-provider construction
among them.  Calling matic's provider function reads matic's two variables
and constructs one wallet provider from them, and nothing else: it neither
reads mumbai's variables nor constructs mumbai's provider; and the same with
the two networks exchanged. -/
theorem load_never_fails {ε π : Type} (dotenvConfig : Env → Env)
    (HDWalletProvider : Option String → Option String → Except ε π) (env : Env) :
    ∃ m, load dotenvConfig HDWalletProvider env =
        { effects := [.dotenvConfig, .newWeb3, .toWei "200" "gwei", .toWei "100" "gwei"]
          result := .ok m } ∧
      (∀ name, Effect.envRead name ∉ (load dotenvConfig HDWalletProvider env).effects) ∧
      (∀ a b, Effect.newHDWalletProvider a b ∉
        (load dotenvConfig HDWalletProvider env).effects) ∧
      (∀ env₂, ∃ o, invokeProvider m.exports "matic" env₂ = some o ∧
        o.effects = [.envRead "MATIC_DEPLOYER_FINAL", .envRead "MATIC_ENDPOINT_FINAL",
          .newHDWalletProvider (env₂ "MATIC_DEPLOYER_FINAL") (env₂ "MATIC_ENDPOINT_FINAL")] ∧
        Effect.envRead "MUMBAI_DEPLOYER" ∉ o.effects ∧
        Effect.envRead "MUMBAI_ENDPOINT" ∉ o.effects ∧
        (∀ a b, Effect.newHDWalletProvider a b ∈ o.effects →
          a = env₂ "MATIC_DEPLOYER_FINAL" ∧ b = env₂ "MATIC_ENDPOINT_FINAL")) ∧
      (∀ env₂, ∃ o, invokeProvider m.exports "mumbai" env₂ = some o ∧
        o.effects = [.envRead "MUMBAI_DEPLOYER", .envRead "MUMBAI_ENDPOINT",
          .newHDWalletProvider (env₂ "MUMBAI_DEPLOYER") (env₂ "MUMBAI_ENDPOINT")] ∧
        Effect.envRead "MATIC_DEPLOYER_FINAL" ∉ o.effects ∧
        Effect.envRead "MATIC_ENDPOINT_FINAL" ∉ o.effects ∧
        (∀ a b, Effect.newHDWalletProvider a b ∈ o.effects →
          a = env₂ "MUMBAI_DEPLOYER" ∧ b = env₂ "MUMBAI_ENDPOINT")) := by
  rw [load_eq]
  refine ⟨_, rfl, ?_, ?_, ?_, ?_⟩
  · intro name; simp
  · intro a b; simp
  · intro env₂
    refine ⟨_, invokeProvider_matic _ _ _ _, rfl, ?_, ?_, ?_⟩
    · simp [providerThunk]
    · simp [providerThunk]
    · intro a b h
      simpa [providerThunk] using h
  · intro env₂
    refine ⟨_, invokeProvider_mumbai _ _ _ _, rfl, ?_, ?_, ?_⟩
    · simp [providerThunk]
    · simp [providerThunk]
    · intro a b h
      simpa [providerThunk] using h

/-- C5 fails as stated: with matic's two variables set to non-empty strings
the load succeeds, but calling matic's provider function fails when the
wallet provider does not accept the secret it is handed. -/
theorem set_variables_not_sufficient :
    isSet sampleEnv "MATIC_DEPLOYER_FINAL" ∧
    isSet sampleEnv "MATIC_ENDPOINT_FINAL" ∧
    ∃ m, (load id strictWallet sampleEnv).result = .ok m ∧
      (invokeProvider m.exports "matic" sampleEnv).map Outcome.result
        = some (.error "Could not create addresses from your mnemonic or private key(s)") := by
  refine ⟨⟨"matic secret", rfl, by decide⟩, ⟨"https://matic.example", rfl, by decide⟩, ?_⟩
  rw [load_eq]
  exact ⟨_, rfl, rfl⟩

/-- C5 as amended: for every declared network the load succeeds and the
network's entry carries its declared chain id, 137 for matic and 80001 for
mumbai; when both of its variables are set to non-empty strings and the
wallet provider accepts them, calling the network's provider function hands
the secret and the endpoint, in this order and nothing else, to the
constructor and yields the provider the constructor built. -/
theorem set_variables_forwarded {ε π : Type} (dotenvConfig : Env → Env)
    (HDWalletProvider : Option String → Option String → Except ε π)
    (env₀ env : Env) (name first second : String) (chainId : Nat)
    (secret endpoint : String) (p : π)
    (hN : (name, first, second) ∈ requiredVariables)
    (hid : (name, chainId) ∈ [("matic", 137), ("mumbai", 80001)])
    (hsecret : env first = some secret) (_hs : secret ≠ "")
    (hendpoint : env second = some endpoint) (_he : endpoint ≠ "")
    (haccept : HDWalletProvider (some secret) (some endpoint) = .ok p) :
    ∃ m, (load dotenvConfig HDWalletProvider env₀).result = .ok m ∧
      networkId m.exports name = some chainId ∧
      invokeProvider m.exports name env = some
        { effects := [.envRead first, .envRead second,
                      .newHDWalletProvider (some secret) (some endpoint)]
          result := .ok p } := by
  rw [load_eq]
  refine ⟨_, rfl, ?_⟩
  simp only [requiredVariables, List.mem_cons, Prod.mk.injEq, List.mem_singleton,
    List.not_mem_nil, or_false] at hN hid
  rcases hN with ⟨rfl, rfl, rfl⟩ | ⟨rfl, rfl, rfl⟩
  · rcases hid with ⟨_, rfl⟩ | ⟨h, _⟩
    · refine ⟨rfl, ?_⟩
      rw [invokeProvider_matic]
      simp [providerThunk, hsecret, hendpoint, haccept]
    · exact absurd h (by decide)
  · rcases hid with ⟨h, _⟩ | ⟨_, rfl⟩
    · exact absurd h (by decide)
    · refine ⟨rfl, ?_⟩
      rw [invokeProvider_mumbai]
      simp [providerThunk, hsecret, hendpoint, haccept]

/-- The amended C5 at a concrete input: matic's provider function called
with the four variables set and a wallet provider that accepts them. -/
theorem set_variables_forwarded_witness :
    ("matic", "MATIC_DEPLOYER_FINAL", "MATIC_ENDPOINT_FINAL") ∈ requiredVariables ∧
    ("matic", 137) ∈ [("matic", 137), ("mumbai", 80001)] ∧
    sampleEnv "MATIC_DEPLOYER_FINAL" = some "matic secret" ∧ "matic secret" ≠ "" ∧
    sampleEnv "MATIC_ENDPOINT_FINAL" = some "https://matic.example" ∧
    "https://matic.example" ≠ "" ∧
    acceptAll (some "matic secret") (some "https://matic.example")
      = .ok (some "matic secret", some "https://matic.example") ∧
    ∃ m, (load id acceptAll emptyEnv).result = .ok m ∧
      networkId m.exports "matic" = some 137 ∧
      invokeProvider m.exports "matic" sampleEnv = some
        { effects := [.envRead "MATIC_DEPLOYER_FINAL", .envRead "MATIC_ENDPOINT_FINAL",
                      .newHDWalletProvider (some "matic secret") (some "https://matic.example")]
          result := .ok (some "matic secret", some "https://matic.example") } :=
  ⟨by decide, by decide, rfl, by decide, rfl, by decide, rfl,
    set_variables_forwarded id acceptAll emptyEnv sampleEnv
      "matic" "MATIC_DEPLOYER_FINAL" "MATIC_ENDPOINT_FINAL" 137
      "matic secret" "https://matic.example" (some "matic secret", some "https://matic.example")
      (by decide) (by decide) rfl (by decide) rfl (by decide) rfl⟩

/-- C6: the `compilers` property of the loaded configuration is the object
with the single compiler `solc`, whose version is "0.8.14" and whose settings
hold the optimizer alone, enabled, with 20000 runs; no other property stands
beside them. -/
theorem compiler_settings {ε π : Type} (dotenvConfig : Env → Env)
    (HDWalletProvider : Option String → Option String → Except ε π) (env : Env) :
    ∃ m, (load dotenvConfig HDWalletProvider env).result = .ok m ∧
      m.exports.get? "compilers" = some (.obj [
        ("solc", .obj [
          ("version", .str "0.8.14"),
          ("settings", .obj [
            ("optimizer", .obj [
              ("enabled", .bool true),
              ("runs", .num 20000)])])])]) ∧
      m.exports.path? ["compilers", "solc", "version"] = some (.str "0.8.14") ∧
      m.exports.path? ["compilers", "solc", "settings", "optimizer", "enabled"]
        = some (.bool true) ∧
      m.exports.path? ["compilers", "solc", "settings", "optimizer", "runs"]
        = some (.num 20000) ∧
      (m.exports.path? ["compilers"]).map Value.keys = some ["solc"] ∧
      (m.exports.path? ["compilers", "solc"]).map Value.keys = some ["version", "settings"] ∧
      (m.exports.path? ["compilers", "solc", "settings"]).map Value.keys
        = some ["optimizer"] ∧
      (m.exports.path? ["compilers", "solc", "settings", "optimizer"]).map Value.keys
        = some ["enabled", "runs"] := by
  rw [load_eq]
  exact ⟨_, rfl, rfl, rfl, rfl, rfl, rfl, rfl, rfl, rfl⟩

/-- C7: two loads, in any two environments and with any two `dotenv`
behaviours, perform the same actions and export the same object, provider
functions included, so every field is the same; for every declared network,
calling its provider function in two environments that agree on the
network's own two variables has the same outcome, and the two values handed
to the wallet provider are the values read from the environment, never a
literal of the file: an unset variable gives an absent value. -/
theorem configuration_independent_of_environment {ε π : Type}
    (dotenvConfig₁ dotenvConfig₂ : Env → Env)
    (HDWalletProvider : Option String → Option String → Except ε π) (e₁ e₂ : Env) :
    ∃ m₁ m₂, (load dotenvConfig₁ HDWalletProvider e₁).result = .ok m₁ ∧
      (load dotenvConfig₂ HDWalletProvider e₂).result = .ok m₂ ∧
      (load dotenvConfig₁ HDWalletProvider e₁).effects
        = (load dotenvConfig₂ HDWalletProvider e₂).effects ∧
      m₁.exports = m₂.exports ∧
      (∀ name first second, (name, first, second) ∈ requiredVariables →
        (∀ env env₂ : Env, env first = env₂ first → env second = env₂ second →
          invokeProvider m₁.exports name env = invokeProvider m₁.exports name env₂) ∧
        (∀ env : Env, ∃ o, invokeProvider m₁.exports name env = some o ∧
          o.effects = [.envRead first, .envRead second,
            .newHDWalletProvider (env first) (env second)] ∧
          o.result = HDWalletProvider (env first) (env second)) ∧
        (∀ env : Env, env first = none → env second = none →
          ∃ o, invokeProvider m₁.exports name env = some o ∧
            Effect.newHDWalletProvider none none ∈ o.effects)) := by
  rw [load_eq, load_eq]
  refine ⟨_, _, rfl, rfl, rfl, rfl, ?_⟩
  intro name first second hN
  simp only [requiredVariables, List.mem_cons, Prod.mk.injEq, List.mem_singleton,
    List.not_mem_nil, or_false] at hN
  rcases hN with ⟨rfl, rfl, rfl⟩ | ⟨rfl, rfl, rfl⟩
  · refine ⟨?_, ?_, ?_⟩
    · intro env env₂ h₁ h₂
      rw [invokeProvider_matic, invokeProvider_matic]
      simp only [providerThunk, h₁, h₂]
    · intro env
      exact ⟨_, invokeProvider_matic _ _ _ _, rfl, rfl⟩
    · intro env h₁ h₂
      refine ⟨_, invokeProvider_matic _ _ _ _, ?_⟩
      simp [providerThunk, h₁, h₂]
  · refine ⟨?_, ?_, ?_⟩
    · intro env env₂ h₁ h₂
      rw [invokeProvider_mumbai, invokeProvider_mumbai]
      simp only [providerThunk, h₁, h₂]
    · intro env
      exact ⟨_, invokeProvider_mumbai _ _ _ _, rfl, rfl⟩
    · intro env h₁ h₂
      refine ⟨_, invokeProvider_mumbai _ _ _ _, ?_⟩
      simp [providerThunk, h₁, h₂]

/-- C7 at a concrete input: two loads in different environments export the
same object, and matic's provider function has the same outcome in
`sampleEnv` and in `maticOnlyEnv`, which differ in mumbai's variables only. -/
theorem configuration_independent_of_environment_witness :
    (load id acceptAll emptyEnv).result.map Module.exports
      = (load id acceptAll sampleEnv).result.map Module.exports ∧
    sampleEnv "MUMBAI_DEPLOYER" ≠ maticOnlyEnv "MUMBAI_DEPLOYER" ∧
    invokeProvider (moduleExports acceptAll "200000000000" "100000000000") "matic" sampleEnv
      = invokeProvider (moduleExports acceptAll "200000000000" "100000000000") "matic"
          maticOnlyEnv := by
  obtain ⟨m₁, m₂, h₁, h₂, _, hexports, h⟩ :=
    configuration_independent_of_environment id id acceptAll emptyEnv sampleEnv
  refine ⟨?_, by decide, ?_⟩
  · rw [h₁, h₂]
    simp only [Except.map, hexports]
  rw [load_eq] at h₁
  cases h₁
  exact (h "matic" "MATIC_DEPLOYER_FINAL" "MATIC_ENDPOINT_FINAL" (by decide)).1
    sampleEnv maticOnlyEnv rfl rfl

/-- C8: in the loaded configuration the network names are pairwise distinct
and so are the chain ids, 137 for matic and 80001 for mumbai; a name selects
at most one declared network and so does a chain id. -/
theorem networks_distinct {ε π : Type} (dotenvConfig : Env → Env)
    (HDWalletProvider : Option String → Option String → Except ε π) (env : Env) :
    ∃ m, (load dotenvConfig HDWalletProvider env).result = .ok m ∧
      (networkNames m.exports).Nodup ∧
      (networkNames m.exports).map (networkId m.exports) = [some 137, some 80001] ∧
      ((networkNames m.exports).map (networkId m.exports)).Nodup ∧
      (∀ a ∈ networkNames m.exports, ∀ b ∈ networkNames m.exports,
        networkId m.exports a = networkId m.exports b → a = b) ∧
      (∀ name : String,
        ((networkNames m.exports).filter (fun n => decide (n = name))).length ≤ 1) ∧
      (∀ id : Nat,
        ((networkNames m.exports).filter
          (fun n => decide (networkId m.exports n = some id))).length ≤ 1) := by
  rw [load_eq]
  have hnames : networkNames (moduleExports HDWalletProvider "200000000000" "100000000000")
      = ["matic", "mumbai"] := rfl
  have hmatic : networkId (moduleExports HDWalletProvider "200000000000" "100000000000")
      "matic" = some 137 := rfl
  have hmumbai : networkId (moduleExports HDWalletProvider "200000000000" "100000000000")
      "mumbai" = some 80001 := rfl
  refine ⟨_, rfl, ?_, ?_, ?_, ?_, ?_, ?_⟩
  · show (networkNames (moduleExports HDWalletProvider _ _)).Nodup
    rw [hnames]; decide
  · show (networkNames (moduleExports HDWalletProvider _ _)).map _ = _
    rw [hnames]; simp [hmatic, hmumbai]
  · show ((networkNames (moduleExports HDWalletProvider _ _)).map _).Nodup
    rw [hnames]; simp [hmatic, hmumbai]
  · show ∀ a ∈ networkNames (moduleExports HDWalletProvider _ _), _
    rw [hnames]
    intro a ha b hb hab
    simp only [List.mem_cons, List.mem_singleton, List.not_mem_nil, or_false] at ha hb
    rcases ha with rfl | rfl <;> rcases hb with rfl | rfl
    · rfl
    · rw [hmatic, hmumbai] at hab; exact absurd hab (by decide)
    · rw [hmatic, hmumbai] at hab; exact absurd hab (by decide)
    · rfl
  · intro name
    show ((networkNames (moduleExports HDWalletProvider _ _)).filter _).length ≤ 1
    rw [hnames]
    by_cases h₁ : "matic" = name
    · have h₂ : ¬ "mumbai" = name := by rw [← h₁]; decide
      simp [List.filter, h₁, h₂]
    · by_cases h₂ : "mumbai" = name <;> simp [List.filter, h₁, h₂]
  · intro id
    show ((networkNames (moduleExports HDWalletProvider _ _)).filter _).length ≤ 1
    rw [hnames]
    by_cases h₁ : 137 = id
    · have h₂ : ¬ 80001 = id := by omega
      simp [List.filter, hmatic, hmumbai, h₁, h₂]
    · by_cases h₂ : 80001 = id <;> simp [List.filter, hmatic, hmumbai, h₁, h₂]

/-- C9: in the loaded configuration the build directory is "./build", the
plugins are the one-element array holding "truffle-contract-size", and the
mocha option enableTimeouts is false, the only mocha option. -/
theorem static_fields {ε π : Type} (dotenvConfig : Env → Env)
    (HDWalletProvider : Option String → Option String → Except ε π) (env : Env) :
    ∃ m, (load dotenvConfig HDWalletProvider env).result = .ok m ∧
      m.exports.get? "contracts_build_directory" = some (.str "./build") ∧
      m.exports.get? "plugins" = some (.arr [.str "truffle-contract-size"]) ∧
      m.exports.path? ["mocha", "enableTimeouts"] = some (.bool false) ∧
      m.exports.get? "mocha" = some (.obj [("enableTimeouts", .bool false)]) ∧
      m.exports.keys = ["contracts_build_directory", "networks", "mocha", "compilers",
        "plugins", "api_keys"] := by
  rw [load_eq]
  exact ⟨_, rfl, rfl, rfl, rfl, rfl, rfl⟩

/-- C10: for every environment, calling matic's provider function reads
MATIC_DEPLOYER_FINAL and then MATIC_ENDPOINT_FINAL and constructs the wallet
provider with the value of the first as first argument and the value of the
second as second argument; calling mumbai's does the same with
MUMBAI_DEPLOYER and MUMBAI_ENDPOINT.  Neither reads a variable of the other
network, so a change of the other network's variables leaves the outcome as
it is, and with a wallet provider that records its arguments the secret is
seen in the first position and the endpoint in the second. -/
theorem credential_wiring {ε π : Type} (dotenvConfig : Env → Env)
    (HDWalletProvider : Option String → Option String → Except ε π) (env₀ env : Env) :
    (∃ m, (load dotenvConfig HDWalletProvider env₀).result = .ok m ∧
      invokeProvider m.exports "matic" env = some
        { effects := [.envRead "MATIC_DEPLOYER_FINAL", .envRead "MATIC_ENDPOINT_FINAL",
            .newHDWalletProvider (env "MATIC_DEPLOYER_FINAL") (env "MATIC_ENDPOINT_FINAL")]
          result := HDWalletProvider (env "MATIC_DEPLOYER_FINAL")
            (env "MATIC_ENDPOINT_FINAL") } ∧
      invokeProvider m.exports "mumbai" env = some
        { effects := [.envRead "MUMBAI_DEPLOYER", .envRead "MUMBAI_ENDPOINT",
            .newHDWalletProvider (env "MUMBAI_DEPLOYER") (env "MUMBAI_ENDPOINT")]
          result := HDWalletProvider (env "MUMBAI_DEPLOYER") (env "MUMBAI_ENDPOINT") } ∧
      (∀ env₂ : Env,
        (∀ x, x ≠ "MUMBAI_DEPLOYER" → x ≠ "MUMBAI_ENDPOINT" → env₂ x = env x) →
        invokeProvider m.exports "matic" env₂ = invokeProvider m.exports "matic" env) ∧
      (∀ env₂ : Env,
        (∀ x, x ≠ "MATIC_DEPLOYER_FINAL" → x ≠ "MATIC_ENDPOINT_FINAL" → env₂ x = env x) →
        invokeProvider m.exports "mumbai" env₂ = invokeProvider m.exports "mumbai" env)) ∧
    (∃ m, (load dotenvConfig acceptAll env₀).result = .ok m ∧
      (invokeProvider m.exports "matic" env).map Outcome.result
        = some (.ok (env "MATIC_DEPLOYER_FINAL", env "MATIC_ENDPOINT_FINAL")) ∧
      (invokeProvider m.exports "mumbai" env).map Outcome.result
        = some (.ok (env "MUMBAI_DEPLOYER", env "MUMBAI_ENDPOINT"))) := by
  rw [load_eq, load_eq]
  refine ⟨⟨_, rfl, invokeProvider_matic _ _ _ _, invokeProvider_mumbai _ _ _ _, ?_, ?_⟩,
    ⟨_, rfl, rfl, rfl⟩⟩
  · intro env₂ h
    rw [invokeProvider_matic, invokeProvider_matic]
    have h₁ := h "MATIC_DEPLOYER_FINAL" (by decide) (by decide)
    have h₂ := h "MATIC_ENDPOINT_FINAL" (by decide) (by decide)
    simp only [providerThunk, h₁, h₂]
  · intro env₂ h
    rw [invokeProvider_mumbai, invokeProvider_mumbai]
    have h₁ := h "MUMBAI_DEPLOYER" (by decide) (by decide)
    have h₂ := h "MUMBAI_ENDPOINT" (by decide) (by decide)
    simp only [providerThunk, h₁, h₂]

/-- C10 at a concrete input: with the four variables set and a wallet
provider that records its arguments, matic's provider is built from matic's
secret and endpoint and mumbai's from mumbai's, secret first. -/
theorem credential_wiring_witness :
    ∃ m, (load id acceptAll sampleEnv).result = .ok m ∧
      (invokeProvider m.exports "matic" sampleEnv).map Outcome.result
        = some (.ok (some "matic secret", some "https://matic.example")) ∧
      (invokeProvider m.exports "mumbai" sampleEnv).map Outcome.result
        = some (.ok (some "mumbai secret", some "https://mumbai.example")) :=
  (credential_wiring id acceptAll sampleEnv sampleEnv).2

end TruffleConfig
